import Mathlib

/-
Verification development for the SNRv5 irrigation controller firmware.

This file gives a shallow embedding, in Lean 4, of the concurrency-and-
consistency core of the firmware: the resource lock registry
(src/LockManager.cpp), the session registry (src/SessionManager.cpp), the
output command dispatcher with its per-channel one-shot timers
(src/OutputPointManager.cpp), and the schedule event validation rules
(src/ScheduleManager.cpp).  Machine `unsigned long` timestamps are modelled
as Nat with explicit 32-bit wraparound where the code subtracts them;
`float` fields of schedule events are modelled as Int, since the code only
ever compares them with 0 (no float arithmetic occurs on any path modelled
here).  Filesystem reads and writes of the single lock file are modelled by
an explicit `LockFile` value: the failure modes of `loadAllLocks` (file
unreadable, JSON parse error, not an array) are constructors, and
`saveAllLocks` is the pure construction of the new file content.
-/

namespace SNRv5

/-- Wraparound 32-bit subtraction `a - b` on `unsigned long` values, as the
firmware computes `millis() - timestamp`. -/
def u32sub (a b : Nat) : Nat :=
  (a % 4294967296 + 4294967296 - b % 4294967296) % 4294967296

/-- Lock types from include/FileLock.h; `(LockType)-1` is the invalid
sentinel used by the default initializer and by `stringToLockType`. -/
inductive LockType where
  | EDITING_SCHEDULE
  | EDITING_TEMPLATE
  | INVALID
deriving DecidableEq, Repr

/-- User roles from include/UserAccount.h. -/
inductive UserRole where
  | VIEWER
  | MANAGER
  | OWNER
  | UNKNOWN
deriving DecidableEq, Repr

/-- A persisted resource lock, from include/FileLock.h. -/
structure FileLock where
  resourceId : String
  lockType : LockType
  sessionId : String
  username : String
  timestamp : Nat
deriving DecidableEq, Repr

/-- Validity check `FileLock::isValid` from include/FileLock.h. -/
def FileLock.isValid (l : FileLock) : Bool :=
  !l.resourceId.isEmpty && l.lockType != LockType.INVALID &&
    !l.sessionId.isEmpty && l.timestamp > 0

/-- An active session record, from include/SessionData.h. -/
structure SessionData where
  sessionId : String
  username : String
  userRole : UserRole
  creationTime : Nat
  lastHeartbeat : Nat
  fingerprint : String
deriving DecidableEq, Repr

/-- Validity check `SessionData::isValid` from include/SessionData.h. -/
def SessionData.isValid (s : SessionData) : Bool :=
  !s.sessionId.isEmpty && !s.username.isEmpty && s.userRole != UserRole.UNKNOWN &&
    s.creationTime > 0 && s.lastHeartbeat > 0

/-- Lock timeout `LOCK_TIMEOUT_MS` (30 minutes) from include/LockManager.h. -/
def LOCK_TIMEOUT_MS : Nat := 30 * 60 * 1000

/-- Session timeout `SESSION_TIMEOUT_MS` (15 minutes) from
include/SessionManager.h. -/
def SESSION_TIMEOUT_MS : Nat := 15 * 60 * 1000

/-- Content of the single persisted lock file (`/locks/active_locks.json`),
with the three failure modes `loadAllLocks` distinguishes: the file cannot
be opened, the JSON does not parse, or it parses but is not an array.  A
readable well-formed file is a JSON array of lock entries. -/
inductive LockFile where
  | unreadable
  | corrupt
  | notArray
  | content (entries : List FileLock)
deriving DecidableEq, Repr

/-- Embedding of `LockManager::loadAllLocks` (src/LockManager.cpp:75): open
failure, parse failure, and a non-array root all return failure (`none`);
otherwise every entry of the array is decoded and only entries passing
`FileLock::isValid` are kept (invalid entries are skipped with a warning). -/
def loadAllLocks : LockFile → Option (List FileLock)
  | LockFile.unreadable => none
  | LockFile.corrupt => none
  | LockFile.notArray => none
  | LockFile.content entries => some (entries.filter FileLock.isValid)

/-- Embedding of `LockManager::saveAllLocks` (src/LockManager.cpp:139): the
file is truncated and rewritten as a JSON array holding exactly the locks
that pass `FileLock::isValid`. -/
def saveAllLocks (locks : List FileLock) : LockFile :=
  LockFile.content (locks.filter FileLock.isValid)

/-- Embedding of `LockManager::acquireLock` (src/LockManager.cpp:189).
Parameters mirror the source; `now` is the value of `millis()` at the call.
Returns the bool result together with the lock file after the call. -/
def acquireLock (resourceId : String) (lockType : LockType)
    (session : SessionData) (now : Nat) (file : LockFile) :
    Bool × LockFile :=
  if resourceId.isEmpty || !session.isValid then (false, file)
  else
    match loadAllLocks file with
    | none => (false, file)
    | some currentLocks =>
      let withNew (locks : List FileLock) : Bool × LockFile :=
        let newLock : FileLock :=
          { resourceId := resourceId, lockType := lockType,
            sessionId := session.sessionId, username := session.username,
            timestamp := now }
        if !newLock.isValid then (false, file)
        else (true, saveAllLocks (locks ++ [newLock]))
      match currentLocks.find? (fun l => l.resourceId == resourceId) with
      | some existingLock =>
        if existingLock.sessionId != session.sessionId then (false, file)
        else
          withNew (currentLocks.filter
            (fun l => !(l.resourceId == resourceId && l.sessionId == session.sessionId)))
      | none => withNew currentLocks

/-- Embedding of `LockManager::releaseLock` (src/LockManager.cpp:270). -/
def releaseLock (resourceId : String) (sessionId : String) (file : LockFile) :
    Bool × LockFile :=
  if resourceId.isEmpty || sessionId.isEmpty then (false, file)
  else
    match loadAllLocks file with
    | none => (false, file)
    | some currentLocks =>
      let remaining := currentLocks.filter
        (fun l => !(l.resourceId == resourceId && l.sessionId == sessionId))
      if remaining.length < currentLocks.length then (true, saveAllLocks remaining)
      else (false, file)

/-- Embedding of `LockManager::releaseLocksForSession`
(src/LockManager.cpp:311): removes every lock held by the session, saving
only when at least one was removed; returns the released count. -/
def releaseLocksForSession (sessionId : String) (file : LockFile) :
    Nat × LockFile :=
  if sessionId.isEmpty then (0, file)
  else
    match loadAllLocks file with
    | none => (0, file)
    | some currentLocks =>
      let remaining := currentLocks.filter (fun l => !(l.sessionId == sessionId))
      let releasedCount := currentLocks.length - remaining.length
      if releasedCount > 0 then (releasedCount, saveAllLocks remaining)
      else (releasedCount, file)

/-- Embedding of `LockManager::isLocked` (src/LockManager.cpp:352): a load
failure is reported as "not locked"; otherwise the first lock entry for the
resource is returned. -/
def isLocked (resourceId : String) (file : LockFile) : Bool × Option FileLock :=
  match loadAllLocks file with
  | none => (false, none)
  | some currentLocks =>
    match currentLocks.find? (fun l => l.resourceId == resourceId) with
    | some lock => (true, some lock)
    | none => (false, none)

/-- Embedding of `LockManager::getLockInfo` (src/LockManager.cpp:381), which
just delegates to `isLocked`. -/
def getLockInfo (resourceId : String) (file : LockFile) : Bool × Option FileLock :=
  isLocked resourceId file

/-- Embedding of the body of `LockManager::cleanupExpiredLocks`
(src/LockManager.cpp:395) once the cleanup interval has elapsed (the sweep
itself; `LOCK_TIMEOUT_MS` is 1800000 > 0 so the sweep is compiled in).
Locks whose 32-bit age `currentTime - timestamp` strictly exceeds the
timeout are removed; the file is rewritten only when something was removed. -/
def cleanupExpiredLocksSweep (currentTime : Nat) (file : LockFile) : LockFile :=
  match loadAllLocks file with
  | none => file
  | some currentLocks =>
    let remaining := currentLocks.filter
      (fun l => !(u32sub currentTime l.timestamp > LOCK_TIMEOUT_MS))
    if remaining.length < currentLocks.length then saveAllLocks remaining
    else file

/-- Combined mutable state of the session registry together with the lock
file it tears locks out of: `SessionManager::activeSessions` is a
`std::map<String, SessionData>` (modelled as an association list with unique
keys where stated) and `removeSessionInternal` reaches into the global
`lockManager`. -/
structure SMState where
  activeSessions : List (String × SessionData)
  lockFile : LockFile
deriving DecidableEq, Repr

/-- Lookup in the `std::map` of active sessions (`activeSessions.find`). -/
def mapLookup (sessions : List (String × SessionData)) (sessionId : String) :
    Option SessionData :=
  (sessions.find? (fun p => p.1 == sessionId)).map (fun p => p.2)

/-- Embedding of `SessionManager::removeSessionInternal`
(src/SessionManager.cpp:317): when the session is present, its locks are
released through `LockManager::releaseLocksForSession` and the entry is
erased from the map; otherwise nothing happens. -/
def removeSessionInternal (sessionId : String) (st : SMState) : SMState :=
  match mapLookup st.activeSessions sessionId with
  | none => st
  | some _ =>
    let released := releaseLocksForSession sessionId st.lockFile
    { activeSessions := st.activeSessions.filter (fun p => !(p.1 == sessionId)),
      lockFile := released.2 }

/-- Embedding of `SessionManager::validateSession`
(src/SessionManager.cpp:138) from the point where the session id has been
extracted from the `session_id` cookie (the raw cookie-string scan is not
modelled; `sessionId` is its result, the empty string when no cookie
matched).  `currentTime` is `millis()` at the call and
`currentFingerprint` is the freshly computed client fingerprint.  On
timeout or fingerprint mismatch, the matched session is removed via
`removeSessionInternal` and `none` is returned; on success the heartbeat is
refreshed in place. -/
def validateSession (sessionId : String) (currentTime : Nat)
    (currentFingerprint : String) (st : SMState) :
    Option SessionData × SMState :=
  if sessionId.isEmpty then (none, st)
  else
    match mapLookup st.activeSessions sessionId with
    | none => (none, st)
    | some session =>
      if u32sub currentTime session.lastHeartbeat > SESSION_TIMEOUT_MS then
        (none, removeSessionInternal sessionId st)
      else if session.fingerprint != currentFingerprint then
        (none, removeSessionInternal sessionId st)
      else
        let updated := { session with lastHeartbeat := currentTime }
        let refreshed := st.activeSessions.map
          (fun p => if p.1 == sessionId then (p.1, updated) else p)
        (some updated, { st with activeSessions := refreshed })

/-- Embedding of `SessionManager::invalidateSession(sessionId)`
(src/SessionManager.cpp:212). -/
def invalidateSession (sessionId : String) (st : SMState) : Bool × SMState :=
  if sessionId.isEmpty then (false, st)
  else
    match mapLookup st.activeSessions sessionId with
    | some _ => (true, removeSessionInternal sessionId st)
    | none => (false, st)

/-- Embedding of the body of `SessionManager::cleanupExpiredSessions`
(src/SessionManager.cpp:267) once the cleanup interval has elapsed: the ids
of all sessions whose 32-bit age `currentTime - lastHeartbeat` strictly
exceeds the timeout are collected first, then each is removed via
`removeSessionInternal` (which also releases its locks). -/
def cleanupExpiredSessionsSweep (currentTime : Nat) (st : SMState) : SMState :=
  let idsToRemove :=
    (st.activeSessions.filter
      (fun p => u32sub currentTime p.2.lastHeartbeat > SESSION_TIMEOUT_MS)).map
      (fun p => p.1)
  idsToRemove.foldl (fun s id => removeSessionInternal id s) st

/-- Relay command kinds from include/OutputPointManager.h. -/
inductive RelayCommandType where
  | TURN_ON
  | TURN_OFF
  | TURN_ON_TIMED
deriving DecidableEq, Repr

/-- A queued output command, from include/OutputPointManager.h. -/
structure OutputCommand where
  pointId : String
  commandType : RelayCommandType
  durationMs : Nat
deriving DecidableEq, Repr

/-- Embedding of `OutputPointManager::buildDirectRelayMap`
(src/OutputPointManager.cpp:77): maps the configured point id
`pfx + String(startIdx + i)` to relay index `i` for each of the `count`
direct relays (`pfx` is `ioConfig.directIO.relayOutputs.pointIdPrefix`,
`startIdx` is `pointIdStartIndex`). -/
def buildDirectRelayMap (pfx : String) (startIdx : Int) (count : Nat) :
    List (String × Nat) :=
  (List.range count).map (fun i => (pfx ++ toString (startIdx + Int.ofNat i), i))

/-- Lookup in `directRelayPointIdToIndexMap` (`std::map::find`). -/
def relayMapFind (m : List (String × Nat)) (pointId : String) : Option Nat :=
  (m.find? (fun p => p.1 == pointId)).map (fun p => p.2)

/-- Embedding of `OutputPointManager::setDirectRelayStatePhysical`
(src/OutputPointManager.cpp:142) for the ShiftRegister control method (the
DirectGPIO branch in the source is an unimplemented stub): sets or clears
bit `relayIndex` of the 8-bit 74HC595 state byte, with the C truncation of
the `int` mask into `uint8_t`. -/
def setDirectRelayStatePhysical (relayState : Nat) (relayIndex : Nat)
    (turnOn : Bool) : Nat :=
  if turnOn then (relayState ||| (1 <<< relayIndex)) % 256
  else (relayState &&& (4294967295 - (1 <<< relayIndex) % 4294967296)) % 256

/-- State of the output dispatcher: the physical relay byte, the per-relay
one-shot timer slots (`activeTimerTasks`, `some d` when a countdown of `d`
ms is armed), and the FIFO command queue. -/
structure OPMState where
  relayState : Nat
  activeTimerTasks : List (Option Nat)
  queue : List OutputCommand
deriving DecidableEq, Repr

/-- Embedding of one iteration of
`OutputPointManager::processCommandQueueTask` (src/OutputPointManager.cpp:198)
applied to a dequeued command `cmd`: unknown point ids are dropped; TURN_ON
and TURN_OFF drive the relay (TURN_OFF does not touch the timer slots);
TURN_ON_TIMED drives the relay on, deletes any existing timer task for the
relay, and arms a fresh one (net effect on the slot: overwrite). -/
def processCommand (m : List (String × Nat)) (st : OPMState)
    (cmd : OutputCommand) : OPMState :=
  match relayMapFind m cmd.pointId with
  | none => st
  | some relayIndex =>
    match cmd.commandType with
    | RelayCommandType.TURN_ON =>
      { st with relayState := setDirectRelayStatePhysical st.relayState relayIndex true }
    | RelayCommandType.TURN_OFF =>
      { st with relayState := setDirectRelayStatePhysical st.relayState relayIndex false }
    | RelayCommandType.TURN_ON_TIMED =>
      { st with
        relayState := setDirectRelayStatePhysical st.relayState relayIndex true,
        activeTimerTasks := st.activeTimerTasks.set relayIndex (some cmd.durationMs) }

/-- Dequeue the front command (the worker consumes FIFO) and process it. -/
def processQueueStep (m : List (String × Nat)) (st : OPMState) : OPMState :=
  match st.queue with
  | [] => st
  | cmd :: rest => processCommand m { st with queue := rest } cmd

/-- Embedding of the timer-task body at expiry
(src/OutputPointManager.cpp:231): if a timer is armed for `relayIndex`, it
synthesizes a TURN_OFF command with point id
`"DirectRelay_" + String(relayIndex)` (the literal prefix hardcoded in the
lambda), submits it to the back of the command queue via `sendCommand`, and
clears its own slot. -/
def timerFire (relayIndex : Nat) (st : OPMState) : OPMState :=
  match st.activeTimerTasks.getD relayIndex none with
  | none => st
  | some _ =>
    let offCmd : OutputCommand :=
      { pointId := "DirectRelay_" ++ toString relayIndex,
        commandType := RelayCommandType.TURN_OFF, durationMs := 0 }
    { st with
      queue := st.queue ++ [offCmd],
      activeTimerTasks := st.activeTimerTasks.set relayIndex none }

/-- An autopilot window event, from include/ScheduleData.h.  The source
`float` fields carry no arithmetic in the validated paths — only order
comparisons with 0 — so they are modelled as Int. -/
structure AutopilotWindow where
  startTime : Int
  endTime : Int
  matricTension : Int
  doseVolume : Int
  settlingTime : Int
  doseDuration : Int
deriving DecidableEq, Repr

/-- Validity check `AutopilotWindow::isValid` from include/ScheduleData.h. -/
def AutopilotWindow.isValid (w : AutopilotWindow) : Bool :=
  if w.startTime < 0 || w.startTime > 1439 || w.endTime < 0 || w.endTime > 1439 then false
  else if w.startTime >= w.endTime then false
  else if (w.doseVolume <= 0 || w.doseDuration <= 0) && w.settlingTime <= 0 then false
  else true

/-- A duration event, from include/ScheduleData.h. -/
structure DurationEvent where
  startTime : Int
  duration : Int
  endTime : Int
deriving DecidableEq, Repr

/-- Validity check `DurationEvent::isValid` from include/ScheduleData.h. -/
def DurationEvent.isValid (e : DurationEvent) : Bool :=
  if e.startTime < 0 || e.startTime > 1439 then false
  else if e.duration <= 0 then false
  else true

/-- A volume event, from include/ScheduleData.h (`doseVolume` is a source
float modelled as Int, see `AutopilotWindow`). -/
structure VolumeEvent where
  startTime : Int
  doseVolume : Int
  calculatedDuration : Int
deriving DecidableEq, Repr

/-- Validity check `VolumeEvent::isValid` from include/ScheduleData.h. -/
def VolumeEvent.isValid (e : VolumeEvent) : Bool :=
  if e.startTime < 0 || e.startTime > 1439 then false
  else if e.doseVolume <= 0 then false
  else true

/-- A schedule record, from include/ScheduleData.h. -/
structure Schedule where
  scheduleName : String
  lightsOnTime : Int
  lightsOffTime : Int
  scheduleUID : String
  autopilotWindows : List AutopilotWindow
  durationEvents : List DurationEvent
  volumeEvents : List VolumeEvent
deriving DecidableEq, Repr

/-- Embedding of `ScheduleManager::checkTimeBounds`
(src/ScheduleManager.cpp:767). -/
def checkTimeBounds (timeMinutes : Int) : Bool :=
  timeMinutes >= 0 && timeMinutes <= 1439

/-- Embedding of `ScheduleManager::checkAutopilotOverlap`
(src/ScheduleManager.cpp:778): the new window conflicts with an existing
one on equal starts, equal ends, strict envelopment of the existing window,
or its start or end falling strictly inside the existing span. -/
def checkAutopilotOverlap (schedule : Schedule) (newEvent : AutopilotWindow) :
    Bool :=
  schedule.autopilotWindows.any (fun existing =>
    newEvent.startTime == existing.startTime ||
    newEvent.endTime == existing.endTime ||
    (newEvent.startTime < existing.startTime && newEvent.endTime > existing.endTime) ||
    (newEvent.startTime > existing.startTime && newEvent.startTime < existing.endTime) ||
    (newEvent.endTime > existing.startTime && newEvent.endTime < existing.endTime))

/-- Embedding of `ScheduleManager::checkDurationVolumeLimit`
(src/ScheduleManager.cpp:792): the combined duration+volume event count
after adding `newEventCount` events must stay at most 100. -/
def checkDurationVolumeLimit (schedule : Schedule) (newEventCount : Nat) : Bool :=
  schedule.durationEvents.length + schedule.volumeEvents.length + newEventCount <= 100

/-- Embedding of `ScheduleManager::checkDurationOverlap`
(src/ScheduleManager.cpp:801). -/
def checkDurationOverlap (schedule : Schedule) (newEvent : DurationEvent) : Bool :=
  schedule.durationEvents.any (fun existing =>
    newEvent.startTime == existing.startTime ||
    (newEvent.startTime > existing.startTime && newEvent.startTime < existing.endTime) ||
    (newEvent.duration > 0 && newEvent.endTime > existing.startTime &&
      newEvent.endTime < existing.endTime) ||
    (newEvent.duration > 0 && newEvent.startTime < existing.startTime &&
      newEvent.endTime > existing.endTime))

/-- Embedding of `ScheduleManager::checkVolumeOverlap`
(src/ScheduleManager.cpp:824): a volume event conflicts on exact start-time
equality with an existing volume event, or when its start falls strictly
inside an existing duration event's `[start,end)` span. -/
def checkVolumeOverlap (schedule : Schedule) (newEvent : VolumeEvent) : Bool :=
  schedule.volumeEvents.any (fun existingVol =>
    newEvent.startTime == existingVol.startTime) ||
  schedule.durationEvents.any (fun existingDur =>
    newEvent.startTime > existingDur.startTime &&
      newEvent.startTime < existingDur.endTime)

/-- Insert into a list sorted by `le`, used to model `std::sort`. -/
def insertSorted (le : α → α → Bool) (a : α) : List α → List α
  | [] => [a]
  | b :: bs => if le a b then a :: b :: bs else b :: insertSorted le a bs

/-- Model of `std::sort(v.begin(), v.end(), cmp)`: `std::sort` is an
unspecified unstable comparison sort, so any sort agreeing with the
comparator is a faithful model; insertion sort rearranges the vector into
nondecreasing order under the strict-weak comparator `cmp` (an element goes
before `b` exactly when `cmp b a` is false). -/
def sortByCmp (cmp : α → α → Bool) (l : List α) : List α :=
  l.foldr (insertSorted (fun a b => !(cmp b a))) []

/-- Comparator `ScheduleManager::compareAutopilotWindows`
(src/ScheduleManager.cpp:865). -/
def compareAutopilotWindows (a b : AutopilotWindow) : Bool :=
  a.startTime < b.startTime

/-- Comparator `ScheduleManager::compareDurationEvents`
(src/ScheduleManager.cpp:845). -/
def compareDurationEvents (a b : DurationEvent) : Bool :=
  a.startTime < b.startTime

/-- Comparator `ScheduleManager::compareVolumeEvents`
(src/ScheduleManager.cpp:855). -/
def compareVolumeEvents (a b : VolumeEvent) : Bool :=
  a.startTime < b.startTime

/-- Embedding of `ScheduleManager::validateAndAddEvent` for an
`AutopilotWindow` (src/ScheduleManager.cpp:655): validity, time bounds and
overlap checks, then insertion and re-sort by start time.  Returns the bool
result and the schedule after the call. -/
def validateAndAddEvent (schedule : Schedule) (event : AutopilotWindow) :
    Bool × Schedule :=
  if !event.isValid then (false, schedule)
  else if !(checkTimeBounds event.startTime && checkTimeBounds event.endTime) then
    (false, schedule)
  else if checkAutopilotOverlap schedule event then (false, schedule)
  else
    let sorted := sortByCmp compareAutopilotWindows (schedule.autopilotWindows ++ [event])
    (true, { schedule with autopilotWindows := sorted })

/-- The temporary `VolumeEvent` built inside the duration-event batch
validator (src/ScheduleManager.cpp:688) to test a duration event's start
time against existing volume events; unset fields keep the struct's default
initializers. -/
def tempVolEvent (event : DurationEvent) : VolumeEvent :=
  { startTime := event.startTime, doseVolume := 0, calculatedDuration := -1 }

/-- The temporary `DurationEvent` built inside the volume-event batch
validator (src/ScheduleManager.cpp:723). -/
def tempDurEvent (event : VolumeEvent) : DurationEvent :=
  { startTime := event.startTime, duration := 0, endTime := event.startTime }

/-- The per-event check performed by the loop body of the duration batch
validator (src/ScheduleManager.cpp:681): validity, time bounds, overlap
against the duration events already in the schedule, and the event's start
time against the volume events already in the schedule. -/
def durationEventOk (schedule : Schedule) (event : DurationEvent) : Bool :=
  event.isValid &&
  checkTimeBounds event.startTime && checkTimeBounds event.endTime &&
  !(checkDurationOverlap schedule event) &&
  !(checkVolumeOverlap schedule (tempVolEvent event))

/-- Embedding of `ScheduleManager::validateAndAddEvents` for a batch of
`DurationEvent`s (src/ScheduleManager.cpp:677): the combined-count limit is
checked first, then each event of the batch is checked individually against
the events already in the schedule; only then are all batch events appended
and the vector re-sorted.  The loop's early `return false` on the first
failing event has no side effect, so it is the conjunction over the
batch. -/
def validateAndAddDurationEvents (schedule : Schedule)
    (events : List DurationEvent) : Bool × Schedule :=
  if !checkDurationVolumeLimit schedule events.length then (false, schedule)
  else if !(events.all (durationEventOk schedule)) then (false, schedule)
  else
    let sorted := sortByCmp compareDurationEvents (schedule.durationEvents ++ events)
    (true, { schedule with durationEvents := sorted })

/-- The per-event check performed by the loop body of the volume batch
validator (src/ScheduleManager.cpp:717). -/
def volumeEventOk (schedule : Schedule) (event : VolumeEvent) : Bool :=
  event.isValid &&
  checkTimeBounds event.startTime &&
  !(checkVolumeOverlap schedule event) &&
  !(checkDurationOverlap schedule (tempDurEvent event))

/-- Embedding of `ScheduleManager::validateAndAddEvents` for a batch of
`VolumeEvent`s (src/ScheduleManager.cpp:712), symmetric to the duration
version. -/
def validateAndAddVolumeEvents (schedule : Schedule)
    (events : List VolumeEvent) : Bool × Schedule :=
  if !checkDurationVolumeLimit schedule events.length then (false, schedule)
  else if !(events.all (volumeEventOk schedule)) then (false, schedule)
  else
    let sorted := sortByCmp compareVolumeEvents (schedule.volumeEvents ++ events)
    (true, { schedule with volumeEvents := sorted })

/-- Concrete lock held by session token `tokA`, used to instantiate the
lock-registry theorems. -/
def exampleLockA : FileLock :=
  { resourceId := "schedule_plan1", lockType := LockType.EDITING_SCHEDULE,
    sessionId := "tokA", username := "alice", timestamp := 5 }

/-- Concrete session of user alice holding `exampleLockA`. -/
def exampleSessionA : SessionData :=
  { sessionId := "tokA", username := "alice", userRole := UserRole.OWNER,
    creationTime := 1, lastHeartbeat := 1, fingerprint := "fpA" }

/-- Concrete session of a second user with a different token. -/
def exampleSessionB : SessionData :=
  { sessionId := "tokB", username := "bob", userRole := UserRole.MANAGER,
    creationTime := 1, lastHeartbeat := 1, fingerprint := "fpB" }

/-- Concrete lock file holding exactly `exampleLockA`. -/
def exampleFile : LockFile := LockFile.content [exampleLockA]

/-- Concrete stale lock: at time 2000000 its 32-bit age 1999999 exceeds the
30-minute lock timeout. -/
def staleLock : FileLock :=
  { resourceId := "schedule_old", lockType := LockType.EDITING_SCHEDULE,
    sessionId := "sidOld", username := "olivia", timestamp := 1 }

/-- Concrete fresh lock: at time 2000000 its age 1000 is below the
timeout. -/
def freshLock : FileLock :=
  { resourceId := "schedule_new", lockType := LockType.EDITING_TEMPLATE,
    sessionId := "sidNew", username := "nina", timestamp := 1999000 }

/-- Concrete lock file holding one stale and one fresh lock. -/
def sweepFile : LockFile := LockFile.content [staleLock, freshLock]

/-- Concrete session that is stale at time 2000000 (age 1999999 exceeds the
15-minute session timeout). -/
def sessOld : SessionData :=
  { sessionId := "sidOld", username := "olivia", userRole := UserRole.MANAGER,
    creationTime := 1, lastHeartbeat := 1, fingerprint := "fpOld" }

/-- Concrete session that is fresh at time 2000000 (age 1000). -/
def sessNew : SessionData :=
  { sessionId := "sidNew", username := "nina", userRole := UserRole.VIEWER,
    creationTime := 1999000, lastHeartbeat := 1999000, fingerprint := "fpNew" }

/-- Concrete session-registry state pairing the two sessions with
`sweepFile`. -/
def sweepState : SMState :=
  { activeSessions := [("sidOld", sessOld), ("sidNew", sessNew)],
    lockFile := sweepFile }

/-- Concrete schedule with no events. -/
def emptySched : Schedule :=
  { scheduleName := "sched", lightsOnTime := 0, lightsOffTime := 0,
    scheduleUID := "uid1", autopilotWindows := [], durationEvents := [],
    volumeEvents := [] }

/-- Concrete valid autopilot window spanning minutes 60 to 120. -/
def win60 : AutopilotWindow :=
  { startTime := 60, endTime := 120, matricTension := 0, doseVolume := 1,
    settlingTime := 1, doseDuration := 1 }

/-- Concrete valid autopilot window spanning 120 to 180 (touches `win60`). -/
def win120 : AutopilotWindow := { win60 with startTime := 120, endTime := 180 }

/-- Concrete schedule already holding `win60`. -/
def schedWith60 : Schedule := { emptySched with autopilotWindows := [win60] }

/-- Concrete valid duration event; note the source never validates `endTime`
against `startTime + duration`, the overlap checks just read it. -/
def durEvt10 : DurationEvent := { startTime := 10, duration := 60, endTime := 11 }

/-- Schedule pre-loaded with 100 combined duration+volume events, for the
limit boundary. -/
def sched100 : Schedule :=
  { emptySched with
    durationEvents := (List.range 100).map
      (fun i => { startTime := Int.ofNat i, duration := 1, endTime := Int.ofNat i }) }

/-- Schedule pre-loaded with 99 combined duration+volume events. -/
def sched99 : Schedule :=
  { emptySched with
    durationEvents := (List.range 99).map
      (fun i => { startTime := Int.ofNat i, duration := 1, endTime := Int.ofNat i }) }

/-- Concrete duration event at minute 1000, clear of `sched99`'s events. -/
def durEvt1000 : DurationEvent :=
  { startTime := 1000, duration := 5, endTime := 1001 }

/-- Relay point-id map for the default-looking configuration: one relay,
point-id prefix `DirectRelay_`, start index 0. -/
def relayMap0 : List (String × Nat) := buildDirectRelayMap "DirectRelay_" 0 1

/-- Relay point-id map for a shifted configuration: two relays, prefix
`DirectRelay_`, start index 1 (point ids `DirectRelay_1`, `DirectRelay_2`). -/
def relayMap1 : List (String × Nat) := buildDirectRelayMap "DirectRelay_" 1 2

/-- TURN_ON_TIMED command for a point id, 2000 ms. -/
def onTimedCmd (pid : String) : OutputCommand :=
  { pointId := pid, commandType := RelayCommandType.TURN_ON_TIMED,
    durationMs := 2000 }

/-- TURN_OFF command for a point id. -/
def offCmd (pid : String) : OutputCommand :=
  { pointId := pid, commandType := RelayCommandType.TURN_OFF, durationMs := 0 }

/-- Dispatcher state with `n` relays, all off, no timers, empty queue. -/
def opmInit (n : Nat) : OPMState :=
  { relayState := 0, activeTimerTasks := List.replicate n none, queue := [] }

/-- Concrete valid volume event at minute 5. -/
def volEvt5 : VolumeEvent :=
  { startTime := 5, doseVolume := 2, calculatedDuration := -1 }

/-- One instance of the section-4.4 no-overlap invariant on a stored
schedule: no two distinct stored duration events share a start time (equal
start times is the first duration-overlap rule, so violating this is an
overlap of comparable events). -/
def durationStartsPairwiseDistinct (s : Schedule) : Prop :=
  s.durationEvents.Pairwise (fun a b => a.startTime ≠ b.startTime)

/- ----------------------------------------------------------------- -/
/- Helper lemmas shared by the claim theorems.                        -/
/- ----------------------------------------------------------------- -/

/-- Inserting into a list grows its length by one. -/
theorem insertSorted_length (le : α → α → Bool) (a : α) (l : List α) :
    (insertSorted le a l).length = l.length + 1 := by
  induction l with
  | nil => rfl
  | cons b bs ih =>
    unfold insertSorted
    split
    · simp
    · simp [ih]

/-- The model sort preserves length. -/
theorem sortByCmp_length (cmp : α → α → Bool) (l : List α) :
    (sortByCmp cmp l).length = l.length := by
  unfold sortByCmp
  induction l with
  | nil => rfl
  | cons a as ih =>
    simp only [List.foldr_cons, insertSorted_length, ih, List.length_cons]

/-- A successful duration batch passed the limit check and every per-event
check, and the call appended exactly the batch (then sorted). -/
theorem validateAndAddDurationEvents_true {s : Schedule}
    {evs : List DurationEvent}
    (h : (validateAndAddDurationEvents s evs).1 = true) :
    checkDurationVolumeLimit s evs.length = true ∧
    evs.all (durationEventOk s) = true ∧
    validateAndAddDurationEvents s evs =
      (true, { s with durationEvents := sortByCmp compareDurationEvents (s.durationEvents ++ evs) }) := by
  by_cases h1 : checkDurationVolumeLimit s evs.length = true
  · by_cases h2 : evs.all (durationEventOk s) = true
    · refine ⟨h1, h2, ?_⟩
      unfold validateAndAddDurationEvents
      rw [h1, h2]
      rfl
    · exfalso
      rw [Bool.not_eq_true] at h2
      unfold validateAndAddDurationEvents at h
      rw [h2] at h
      simp at h
  · exfalso
    rw [Bool.not_eq_true] at h1
    unfold validateAndAddDurationEvents at h
    rw [h1] at h
    simp at h

/-- A successful volume batch passed the limit check and every per-event
check, and the call appended exactly the batch (then sorted). -/
theorem validateAndAddVolumeEvents_true {s : Schedule}
    {evs : List VolumeEvent}
    (h : (validateAndAddVolumeEvents s evs).1 = true) :
    checkDurationVolumeLimit s evs.length = true ∧
    evs.all (volumeEventOk s) = true ∧
    validateAndAddVolumeEvents s evs =
      (true, { s with volumeEvents := sortByCmp compareVolumeEvents (s.volumeEvents ++ evs) }) := by
  by_cases h1 : checkDurationVolumeLimit s evs.length = true
  · by_cases h2 : evs.all (volumeEventOk s) = true
    · refine ⟨h1, h2, ?_⟩
      unfold validateAndAddVolumeEvents
      rw [h1, h2]
      rfl
    · exfalso
      rw [Bool.not_eq_true] at h2
      unfold validateAndAddVolumeEvents at h
      rw [h2] at h
      simp at h
  · exfalso
    rw [Bool.not_eq_true] at h1
    unfold validateAndAddVolumeEvents at h
    rw [h1] at h
    simp at h

/-- A successful duration batch keeps the combined duration+volume count at
or below 100. -/
theorem validateAndAddDurationEvents_count {s : Schedule}
    {evs : List DurationEvent}
    (h : (validateAndAddDurationEvents s evs).1 = true) :
    (validateAndAddDurationEvents s evs).2.durationEvents.length +
      (validateAndAddDurationEvents s evs).2.volumeEvents.length ≤ 100 := by
  obtain ⟨h1, -, heq⟩ := validateAndAddDurationEvents_true h
  rw [heq]
  simp only [sortByCmp_length, List.length_append]
  unfold checkDurationVolumeLimit at h1
  simp only [decide_eq_true_eq] at h1
  omega

/-- A successful volume batch keeps the combined duration+volume count at
or below 100. -/
theorem validateAndAddVolumeEvents_count {s : Schedule}
    {evs : List VolumeEvent}
    (h : (validateAndAddVolumeEvents s evs).1 = true) :
    (validateAndAddVolumeEvents s evs).2.durationEvents.length +
      (validateAndAddVolumeEvents s evs).2.volumeEvents.length ≤ 100 := by
  obtain ⟨h1, -, heq⟩ := validateAndAddVolumeEvents_true h
  rw [heq]
  simp only [sortByCmp_length, List.length_append]
  unfold checkDurationVolumeLimit at h1
  simp only [decide_eq_true_eq] at h1
  omega

/-- Every lock returned by a successful `loadAllLocks` passed
`FileLock::isValid` (invalid entries are skipped during parsing). -/
theorem loadAllLocks_mem_valid {file : LockFile} {locks : List FileLock}
    (h : loadAllLocks file = some locks) :
    ∀ l ∈ locks, l.isValid = true := by
  cases file with
  | unreadable => simp [loadAllLocks] at h
  | corrupt => simp [loadAllLocks] at h
  | notArray => simp [loadAllLocks] at h
  | content entries =>
    simp only [loadAllLocks, Option.some.injEq] at h
    subst h
    intro l hl
    exact (List.mem_filter.mp hl).2

/-- Reading back a saved lock set returns it unchanged when every entry is
valid. -/
theorem loadAllLocks_saveAllLocks {X : List FileLock}
    (h : ∀ l ∈ X, l.isValid = true) :
    loadAllLocks (saveAllLocks X) = some X := by
  simp only [loadAllLocks, saveAllLocks]
  rw [List.filter_eq_self.mpr h, List.filter_eq_self.mpr h]

/-- C1: if resource R is held by session A, an `acquireLock` on R by any
session B whose token differs from A returns false and leaves the stored
lock file — hence R's holder token, holder username, and timestamp —
completely unchanged. -/
theorem C1_acquireLock_conflict_rejects_and_preserves
    (file : LockFile) (locks : List FileLock) (R : String) (kind : LockType)
    (tokenA : String) (sessionB : SessionData) (now : Nat)
    (hload : loadAllLocks file = some locks)
    (hheld : ∃ l ∈ locks, l.resourceId = R)
    (hholder : ∀ l ∈ locks, l.resourceId = R → l.sessionId = tokenA)
    (hdiff : sessionB.sessionId ≠ tokenA) :
    acquireLock R kind sessionB now file = (false, file) := by
  obtain ⟨l0, hl0mem, hl0R⟩ := hheld
  have hfind : ∃ ex, locks.find? (fun l => l.resourceId == R) = some ex := by
    cases hf : locks.find? (fun l => l.resourceId == R) with
    | some ex => exact ⟨ex, rfl⟩
    | none =>
      have hnone := List.find?_eq_none.mp hf l0 hl0mem
      simp [hl0R] at hnone
  obtain ⟨ex, hex⟩ := hfind
  have hexR : ex.resourceId = R := by
    have := List.find?_some hex
    simpa using this
  have hexmem : ex ∈ locks := List.mem_of_find?_eq_some hex
  have hexA : ex.sessionId = tokenA := hholder ex hexmem hexR
  have hbne : (ex.sessionId != sessionB.sessionId) = true := by
    simp only [bne_iff_ne, ne_eq, hexA]
    intro hcontra
    exact hdiff hcontra.symm
  unfold acquireLock
  cases hg : (R.isEmpty || !sessionB.isValid) with
  | true => simp [hg]
  | false =>
    simp only [hg, Bool.false_eq_true, if_false, hload]
    rw [hex]
    simp [hbne]

/-- C1 witness: a concrete conflicting acquire is rejected without touching
the stored lock. -/
theorem C1_witness :
    acquireLock "schedule_plan1" LockType.EDITING_SCHEDULE exampleSessionB 77
      exampleFile = (false, exampleFile) :=
  C1_acquireLock_conflict_rejects_and_preserves exampleFile [exampleLockA]
    "schedule_plan1" LockType.EDITING_SCHEDULE "tokA" exampleSessionB 77
    (by decide) (by decide) (by decide) (by decide)

/-- C4: a second `acquireLock` on a resource already held by the same
session succeeds, keeps the lock's holder token, username and kind
unchanged with only the timestamp refreshed to the current time, and leaves
every other stored lock untouched: the resulting lock set is exactly the
old set with the held lock's timestamp replaced. -/
theorem C4_acquireLock_same_session_idempotent
    (file : LockFile) (locks : List FileLock) (lockA : FileLock)
    (A : SessionData) (now : Nat)
    (hload : loadAllLocks file = some locks)
    (hmem : lockA ∈ locks)
    (huniq : ∀ l ∈ locks, l.resourceId = lockA.resourceId → l = lockA)
    (hsid : lockA.sessionId = A.sessionId)
    (husr : lockA.username = A.username)
    (hvalidA : A.isValid = true)
    (hnow : 0 < now) :
    acquireLock lockA.resourceId lockA.lockType A now file =
      (true, saveAllLocks
        ((locks.filter (fun l => !(l.resourceId == lockA.resourceId))) ++
          [{ lockA with timestamp := now }])) ∧
    loadAllLocks (acquireLock lockA.resourceId lockA.lockType A now file).2 =
      some ((locks.filter (fun l => !(l.resourceId == lockA.resourceId))) ++
        [{ lockA with timestamp := now }]) := by
  have hvalidL := loadAllLocks_mem_valid hload
  have hAv : lockA.isValid = true := hvalidL lockA hmem
  simp only [FileLock.isValid, Bool.and_eq_true, Bool.not_eq_true',
    bne_iff_ne, ne_eq, decide_eq_true_eq] at hAv
  obtain ⟨⟨⟨hRne, hTne⟩, hSne⟩, hTSpos⟩ := hAv
  have hfind : locks.find? (fun l => l.resourceId == lockA.resourceId) = some lockA := by
    cases hf : locks.find? (fun l => l.resourceId == lockA.resourceId) with
    | none =>
      have hnone := List.find?_eq_none.mp hf lockA hmem
      simp at hnone
    | some ex =>
      have hexR : ex.resourceId = lockA.resourceId := by
        have := List.find?_some hf
        simpa using this
      have hexmem := List.mem_of_find?_eq_some hf
      rw [huniq ex hexmem hexR]
  have hcond : (lockA.resourceId.isEmpty || !A.isValid) = false := by
    simp [hRne, hvalidA]
  have hbne : (lockA.sessionId != A.sessionId) = false := by
    simp [hsid]
  have hfiltercongr :
      locks.filter (fun l =>
        !(l.resourceId == lockA.resourceId && l.sessionId == A.sessionId)) =
      locks.filter (fun l => !(l.resourceId == lockA.resourceId)) := by
    apply List.filter_congr
    intro l hl
    by_cases hR : l.resourceId = lockA.resourceId
    · have hla : l = lockA := huniq l hl hR
      subst hla
      simp [← hsid]
    · simp [hR]
  have hnewEq :
      ({ resourceId := lockA.resourceId, lockType := lockA.lockType,
         sessionId := A.sessionId, username := A.username,
         timestamp := now } : FileLock) = { lockA with timestamp := now } := by
    rw [← hsid, ← husr]
  have hnewvalid : ({ lockA with timestamp := now } : FileLock).isValid = true := by
    simp [FileLock.isValid, hRne, hTne, hSne, hnow]
  have hmain : acquireLock lockA.resourceId lockA.lockType A now file =
      (true, saveAllLocks
        ((locks.filter (fun l => !(l.resourceId == lockA.resourceId))) ++
          [{ lockA with timestamp := now }])) := by
    unfold acquireLock
    simp only [hcond, Bool.false_eq_true, if_false, hload, hfind, hbne,
      Bool.false_eq_true, if_false, hfiltercongr, hnewEq, hnewvalid,
      Bool.not_true, Bool.not_eq_true]
  refine ⟨hmain, ?_⟩
  rw [hmain]
  apply loadAllLocks_saveAllLocks
  intro l hl
  rcases List.mem_append.mp hl with hl1 | hl2
  · exact hvalidL l (List.mem_of_mem_filter hl1)
  · rcases List.mem_singleton.mp hl2 with rfl
    exact hnewvalid

/-- C4 witness: a concrete same-session re-acquire succeeds and only
refreshes the timestamp. -/
theorem C4_witness :
    acquireLock "schedule_plan1" LockType.EDITING_SCHEDULE exampleSessionA 99
      exampleFile =
      (true, saveAllLocks [{ exampleLockA with timestamp := 99 }]) ∧
    loadAllLocks (acquireLock "schedule_plan1" LockType.EDITING_SCHEDULE
        exampleSessionA 99 exampleFile).2 =
      some [{ exampleLockA with timestamp := 99 }] :=
  C4_acquireLock_same_session_idempotent exampleFile [exampleLockA] exampleLockA
    exampleSessionA 99 (by decide) (by decide) (by decide) (by decide)
    (by decide) (by decide) (by decide)

/-- C10: when the lock file cannot be opened, fails to parse as JSON, or
does not contain a JSON array, `isLocked` and `getLockInfo` report every
resource as unlocked (false, no lock info) rather than surfacing an
error. -/
theorem C10_load_failure_reads_as_unlocked (resourceId : String) :
    isLocked resourceId LockFile.unreadable = (false, none) ∧
    isLocked resourceId LockFile.corrupt = (false, none) ∧
    isLocked resourceId LockFile.notArray = (false, none) ∧
    getLockInfo resourceId LockFile.unreadable = (false, none) ∧
    getLockInfo resourceId LockFile.corrupt = (false, none) ∧
    getLockInfo resourceId LockFile.notArray = (false, none) :=
  ⟨rfl, rfl, rfl, rfl, rfl, rfl⟩

/-- The lock sweep keeps exactly the loaded locks whose 32-bit age is not
strictly above the timeout. -/
theorem cleanupExpiredLocksSweep_load {file : LockFile} {locks : List FileLock}
    (now : Nat) (hload : loadAllLocks file = some locks) :
    loadAllLocks (cleanupExpiredLocksSweep now file) =
      some (locks.filter (fun l => !(u32sub now l.timestamp > LOCK_TIMEOUT_MS))) := by
  have hvalidL := loadAllLocks_mem_valid hload
  unfold cleanupExpiredLocksSweep
  rw [hload]
  simp only []
  split
  · apply loadAllLocks_saveAllLocks
    intro l hl
    exact hvalidL l (List.mem_of_mem_filter hl)
  · rename_i hnlt
    have hle := List.length_filter_le
      (fun l => !(u32sub now l.timestamp > LOCK_TIMEOUT_MS)) locks
    have heq : (locks.filter
        (fun l => !(u32sub now l.timestamp > LOCK_TIMEOUT_MS))).length =
        locks.length := by omega
    rw [List.filter_eq_self.mpr (List.filter_length_eq_length.mp heq)]
    exact hload

/-- Releasing the locks of a session leaves exactly the loaded locks held
by other tokens. -/
theorem releaseLocksForSession_load {sessionId : String} {file : LockFile}
    {locks : List FileLock}
    (hse : sessionId.isEmpty = false) (hload : loadAllLocks file = some locks) :
    loadAllLocks (releaseLocksForSession sessionId file).2 =
      some (locks.filter (fun l => !(l.sessionId == sessionId))) := by
  have hvalidL := loadAllLocks_mem_valid hload
  unfold releaseLocksForSession
  rw [hse, hload]
  simp only [Bool.false_eq_true, if_false]
  split
  · apply loadAllLocks_saveAllLocks
    intro l hl
    exact hvalidL l (List.mem_of_mem_filter hl)
  · rename_i hnpos
    have hle := List.length_filter_le (fun l => !(l.sessionId == sessionId)) locks
    have heq : (locks.filter (fun l => !(l.sessionId == sessionId))).length =
        locks.length := by omega
    rw [List.filter_eq_self.mpr (List.filter_length_eq_length.mp heq)]
    exact hload

/-- Removing a session filters its key out of the active-session map. -/
theorem removeSessionInternal_activeSessions (sessionId : String) (st : SMState) :
    (removeSessionInternal sessionId st).activeSessions =
      st.activeSessions.filter (fun p => !(p.1 == sessionId)) := by
  unfold removeSessionInternal
  cases h : mapLookup st.activeSessions sessionId with
  | some s => simp [h]
  | none =>
    rw [List.filter_eq_self.mpr]
    intro p hp
    unfold mapLookup at h
    simp only [Option.map_eq_none', List.find?_eq_none] at h
    simpa using h p hp

/-- Folding session removal over a list of ids filters all those keys out. -/
theorem foldl_removeSession_activeSessions (ids : List String) (st : SMState) :
    ((ids.foldl (fun s id => removeSessionInternal id s) st).activeSessions) =
      st.activeSessions.filter (fun p => !(ids.contains p.1)) := by
  induction ids generalizing st with
  | nil => simp
  | cons i rest ih =>
    simp only [List.foldl_cons]
    rw [ih, removeSessionInternal_activeSessions, List.filter_filter]
    apply List.filter_congr
    intro p _
    simp only [List.contains_cons, Bool.not_or]
    rw [Bool.and_comm]

/-- C6: after the expiry sweeps run, every loaded lock whose 32-bit age
strictly exceeds `LOCK_TIMEOUT_MS` is absent and every lock strictly
younger than the timeout survives unchanged; likewise every stored session
whose age strictly exceeds `SESSION_TIMEOUT_MS` is no longer found in the
registry, and every strictly younger session entry survives with its fields
unchanged (the session part assumes the map's keys are distinct, as they
are for a `std::map`). -/
theorem C6_expiry_sweeps
    (now : Nat) (file : LockFile) (locks : List FileLock) (st : SMState)
    (hload : loadAllLocks file = some locks)
    (hnodup : (st.activeSessions.map Prod.fst).Nodup) :
    (∃ locksAfter,
      loadAllLocks (cleanupExpiredLocksSweep now file) = some locksAfter ∧
      (∀ l ∈ locks, u32sub now l.timestamp > LOCK_TIMEOUT_MS → l ∉ locksAfter) ∧
      (∀ l ∈ locks, u32sub now l.timestamp < LOCK_TIMEOUT_MS → l ∈ locksAfter)) ∧
    (∀ p ∈ st.activeSessions,
      u32sub now p.2.lastHeartbeat > SESSION_TIMEOUT_MS →
      mapLookup (cleanupExpiredSessionsSweep now st).activeSessions p.1 = none) ∧
    (∀ p ∈ st.activeSessions,
      u32sub now p.2.lastHeartbeat < SESSION_TIMEOUT_MS →
      p ∈ (cleanupExpiredSessionsSweep now st).activeSessions) := by
  have hsweepS :
      (cleanupExpiredSessionsSweep now st).activeSessions =
        st.activeSessions.filter (fun p =>
          !(((st.activeSessions.filter (fun q =>
              u32sub now q.2.lastHeartbeat > SESSION_TIMEOUT_MS)).map
              Prod.fst).contains p.1)) := by
    unfold cleanupExpiredSessionsSweep
    exact foldl_removeSession_activeSessions _ _
  refine ⟨⟨locks.filter (fun l => !(u32sub now l.timestamp > LOCK_TIMEOUT_MS)),
    cleanupExpiredLocksSweep_load now hload, ?_, ?_⟩, ?_, ?_⟩
  · intro l hl hexp hmem
    have := (List.mem_filter.mp hmem).2
    simp [hexp] at this
  · intro l hl hyoung
    refine List.mem_filter.mpr ⟨hl, ?_⟩
    simp only [Bool.not_eq_true', decide_eq_false_iff_not]
    omega
  · intro p hp hexp
    rw [hsweepS]
    unfold mapLookup
    have hfind : List.find? (fun q => q.1 == p.1)
        (st.activeSessions.filter (fun r =>
          !(((st.activeSessions.filter (fun q =>
              u32sub now q.2.lastHeartbeat > SESSION_TIMEOUT_MS)).map
              Prod.fst).contains r.1))) = none := by
      rw [List.find?_eq_none]
      intro q hq
      have hqpred := (List.mem_filter.mp hq).2
      simp only [Bool.not_eq_true'] at hqpred
      intro hbeq
      have hkey : q.1 = p.1 := by simpa using hbeq
      have hpin : p.1 ∈ (st.activeSessions.filter (fun q =>
          u32sub now q.2.lastHeartbeat > SESSION_TIMEOUT_MS)).map Prod.fst := by
        refine List.mem_map.mpr ⟨p, ?_, rfl⟩
        exact List.mem_filter.mpr ⟨hp, by simpa using hexp⟩
      rw [hkey] at hqpred
      rw [List.contains_eq_any_beq] at hqpred
      simp only [List.any_eq_false] at hqpred
      exact absurd (beq_self_eq_true p.1) (hqpred _ hpin)
    rw [hfind]
    rfl
  · intro p hp hyoung
    rw [hsweepS]
    refine List.mem_filter.mpr ⟨hp, ?_⟩
    simp only [Bool.not_eq_true']
    rw [List.contains_eq_any_beq]
    simp only [List.any_eq_false]
    intro a ha
    simp only [List.mem_map] at ha
    obtain ⟨q, hq, rfl⟩ := ha
    have hqex := (List.mem_filter.mp hq).2
    have hqmem := (List.mem_filter.mp hq).1
    simp only [decide_eq_true_eq] at hqex
    intro hbeq
    have hkey : p.1 = q.1 := by simpa using hbeq
    have : q = p := List.inj_on_of_nodup_map hnodup hqmem hp hkey.symm
    subst this
    omega

/-- C6 witness: at time 2000000, the concrete stale lock and stale session
are gone after their sweeps while the fresh lock and fresh session survive
unchanged. -/
theorem C6_witness :
    (∃ locksAfter,
      loadAllLocks (cleanupExpiredLocksSweep 2000000 sweepFile) = some locksAfter ∧
      (∀ l ∈ [staleLock, freshLock],
        u32sub 2000000 l.timestamp > LOCK_TIMEOUT_MS → l ∉ locksAfter) ∧
      (∀ l ∈ [staleLock, freshLock],
        u32sub 2000000 l.timestamp < LOCK_TIMEOUT_MS → l ∈ locksAfter)) ∧
    (∀ p ∈ sweepState.activeSessions,
      u32sub 2000000 p.2.lastHeartbeat > SESSION_TIMEOUT_MS →
      mapLookup (cleanupExpiredSessionsSweep 2000000 sweepState).activeSessions
        p.1 = none) ∧
    (∀ p ∈ sweepState.activeSessions,
      u32sub 2000000 p.2.lastHeartbeat < SESSION_TIMEOUT_MS →
      p ∈ (cleanupExpiredSessionsSweep 2000000 sweepState).activeSessions) :=
  C6_expiry_sweeps 2000000 sweepFile [staleLock, freshLock] sweepState
    (by decide) (by decide)

/-- C3: when a request's session cookie matches a stored session but
validation fails — the 32-bit age `now - lastHeartbeat` exceeds the session
timeout, or the freshly computed fingerprint differs from the stored one —
`validateSession` returns none, the matched session is no longer stored,
and every lock held by its token has been released. -/
theorem C3_failed_validation_tears_down
    (st : SMState) (sessionId : String) (now : Nat) (fp : String)
    (s : SessionData) (locks : List FileLock)
    (hne : sessionId.isEmpty = false)
    (hfound : mapLookup st.activeSessions sessionId = some s)
    (hfail : u32sub now s.lastHeartbeat > SESSION_TIMEOUT_MS ∨ s.fingerprint ≠ fp)
    (hloadlocks : loadAllLocks st.lockFile = some locks) :
    (validateSession sessionId now fp st).1 = none ∧
    mapLookup (validateSession sessionId now fp st).2.activeSessions sessionId =
      none ∧
    loadAllLocks (validateSession sessionId now fp st).2.lockFile =
      some (locks.filter (fun l => !(l.sessionId == sessionId))) := by
  have hvs : validateSession sessionId now fp st =
      (none, removeSessionInternal sessionId st) := by
    unfold validateSession
    simp only [hne, Bool.false_eq_true, if_false]
    rw [hfound]
    by_cases htime : u32sub now s.lastHeartbeat > SESSION_TIMEOUT_MS
    · simp [htime]
    · have hfp : s.fingerprint ≠ fp := by
        rcases hfail with h | h
        · exact absurd h htime
        · exact h
      simp [htime, hfp]
  have hremove : removeSessionInternal sessionId st =
      { activeSessions := st.activeSessions.filter (fun p => !(p.1 == sessionId)),
        lockFile := (releaseLocksForSession sessionId st.lockFile).2 } := by
    unfold removeSessionInternal
    rw [hfound]
  refine ⟨by rw [hvs], ?_, ?_⟩
  · rw [hvs]
    simp only [hremove]
    unfold mapLookup
    rw [List.find?_eq_none.mpr]
    · rfl
    · intro q hq
      have hqp := (List.mem_filter.mp hq).2
      simpa using hqp
  · rw [hvs]
    simp only [hremove]
    exact releaseLocksForSession_load hne hloadlocks

/-- C3 witness: at time 2000000 the stored stale session fails validation
by timeout; it is removed and the lock its token held is released while the
other lock survives. -/
theorem C3_witness :
    (validateSession "sidOld" 2000000 "fpOld" sweepState).1 = none ∧
    mapLookup (validateSession "sidOld" 2000000 "fpOld" sweepState).2.activeSessions
      "sidOld" = none ∧
    loadAllLocks (validateSession "sidOld" 2000000 "fpOld" sweepState).2.lockFile =
      some ([staleLock, freshLock].filter (fun l => !(l.sessionId == "sidOld"))) :=
  C3_failed_validation_tears_down sweepState "sidOld" 2000000 "fpOld" sessOld
    [staleLock, freshLock] (by decide) (by decide) (Or.inl (by decide))
    (by decide)

/-- C2 counterexample: with the one-relay map, after processing
OnTimed(channel 0, 2000 ms) and then Off(channel 0), the channel is OFF but
the countdown timer armed by the OnTimed is still armed (the TURN_OFF
branch never touches `activeTimerTasks`), and when it later expires it
submits a second turn-off command originating from the original timer —
refuting the claim that an Off processed while a timer is armed cancels the
outstanding timer. -/
theorem C2_counterexample :
    (processCommand relayMap0
        (processCommand relayMap0 (opmInit 1) (onTimedCmd "DirectRelay_0"))
        (offCmd "DirectRelay_0")).activeTimerTasks = [some 2000] ∧
    (processCommand relayMap0
        (processCommand relayMap0 (opmInit 1) (onTimedCmd "DirectRelay_0"))
        (offCmd "DirectRelay_0")).activeTimerTasks ≠ [none] ∧
    Nat.testBit (processCommand relayMap0
        (processCommand relayMap0 (opmInit 1) (onTimedCmd "DirectRelay_0"))
        (offCmd "DirectRelay_0")).relayState 0 = false ∧
    (timerFire 0 (processCommand relayMap0
        (processCommand relayMap0 (opmInit 1) (onTimedCmd "DirectRelay_0"))
        (offCmd "DirectRelay_0"))).queue = [offCmd "DirectRelay_0"] := by
  decide

/-- C2 amended: processing a new OnTimed command cancels and replaces any
armed timer for its channel, but processing an Off command leaves the timer
slots untouched — so after OnTimed followed by Off the channel is off while
the original timer stays armed and later fires a second, redundant
turn-off; no re-activation can come from it, since processing a TURN_OFF
command never raises any relay bit and a firing timer only ever appends a
TURN_OFF command. -/
theorem C2_amended_timer_semantics :
    (∀ (m : List (String × Nat)) (st : OPMState) (cmd : OutputCommand)
        (idx : Nat), relayMapFind m cmd.pointId = some idx →
      cmd.commandType = RelayCommandType.TURN_ON_TIMED →
      (processCommand m st cmd).activeTimerTasks =
        st.activeTimerTasks.set idx (some cmd.durationMs)) ∧
    (∀ (m : List (String × Nat)) (st : OPMState) (cmd : OutputCommand),
      cmd.commandType = RelayCommandType.TURN_OFF →
      (processCommand m st cmd).activeTimerTasks = st.activeTimerTasks) ∧
    (∀ (m : List (String × Nat)) (st : OPMState) (cmd : OutputCommand)
        (i : Nat), cmd.commandType = RelayCommandType.TURN_OFF →
      Nat.testBit (processCommand m st cmd).relayState i = true →
      Nat.testBit st.relayState i = true) ∧
    (∀ (i : Nat) (st : OPMState) (c : OutputCommand),
      c ∈ (timerFire i st).queue →
      c ∈ st.queue ∨ c.commandType = RelayCommandType.TURN_OFF) := by
  refine ⟨?_, ?_, ?_, ?_⟩
  · intro m st cmd idx hfind hcmd
    unfold processCommand
    rw [hfind, hcmd]
  · intro m st cmd hcmd
    unfold processCommand
    cases hfind : relayMapFind m cmd.pointId with
    | none => rfl
    | some idx => rw [hcmd]
  · intro m st cmd i hcmd htb
    unfold processCommand at htb
    cases hfind : relayMapFind m cmd.pointId with
    | none => rw [hfind] at htb; exact htb
    | some idx =>
      rw [hfind, hcmd] at htb
      simp only [setDirectRelayStatePhysical, Bool.false_eq_true, if_false] at htb
      rw [(by norm_num : (256 : Nat) = 2 ^ 8)] at htb
      simp only [Nat.testBit_mod_two_pow, Nat.testBit_land,
        Bool.and_eq_true] at htb
      exact htb.2.1
  · intro i st c hc
    unfold timerFire at hc
    cases hslot : st.activeTimerTasks.getD i none with
    | none => rw [hslot] at hc; exact Or.inl hc
    | some d =>
      rw [hslot] at hc
      simp only [List.mem_append, List.mem_singleton] at hc
      rcases hc with hc | hc
      · exact Or.inl hc
      · subst hc
        exact Or.inr rfl

/-- C2 amended witness: the amended semantics applied to the concrete
one-relay trace. -/
theorem C2_amended_witness :
    (processCommand relayMap0 (opmInit 1)
        (onTimedCmd "DirectRelay_0")).activeTimerTasks =
      (opmInit 1).activeTimerTasks.set 0 (some 2000) ∧
    (processCommand relayMap0
        (processCommand relayMap0 (opmInit 1) (onTimedCmd "DirectRelay_0"))
        (offCmd "DirectRelay_0")).activeTimerTasks =
      (processCommand relayMap0 (opmInit 1)
        (onTimedCmd "DirectRelay_0")).activeTimerTasks ∧
    (Nat.testBit (processCommand relayMap0
        (processCommand relayMap0 (opmInit 1) (onTimedCmd "DirectRelay_0"))
        (offCmd "DirectRelay_0")).relayState 0 = true →
      Nat.testBit (processCommand relayMap0 (opmInit 1)
        (onTimedCmd "DirectRelay_0")).relayState 0 = true) ∧
    (offCmd "DirectRelay_0" ∈
        (timerFire 0 (processCommand relayMap0
          (processCommand relayMap0 (opmInit 1) (onTimedCmd "DirectRelay_0"))
          (offCmd "DirectRelay_0"))).queue →
      offCmd "DirectRelay_0" ∈ (processCommand relayMap0
          (processCommand relayMap0 (opmInit 1) (onTimedCmd "DirectRelay_0"))
          (offCmd "DirectRelay_0")).queue ∨
        (offCmd "DirectRelay_0").commandType = RelayCommandType.TURN_OFF) :=
  ⟨C2_amended_timer_semantics.1 relayMap0 (opmInit 1) (onTimedCmd "DirectRelay_0")
      0 (by decide) rfl,
   C2_amended_timer_semantics.2.1 relayMap0
      (processCommand relayMap0 (opmInit 1) (onTimedCmd "DirectRelay_0"))
      (offCmd "DirectRelay_0") rfl,
   C2_amended_timer_semantics.2.2.1 relayMap0
      (processCommand relayMap0 (opmInit 1) (onTimedCmd "DirectRelay_0"))
      (offCmd "DirectRelay_0") 0 rfl,
   C2_amended_timer_semantics.2.2.2 0
      (processCommand relayMap0
        (processCommand relayMap0 (opmInit 1) (onTimedCmd "DirectRelay_0"))
        (offCmd "DirectRelay_0"))
      (offCmd "DirectRelay_0")⟩

/-- C5: with point-id prefix `DirectRelay_` and start index 1 (relay index
1 has point id `DirectRelay_2`), the expiring timer of relay 1 synthesizes
its Off command with the hardcoded id `"DirectRelay_" + relayIndex` =
`DirectRelay_1`, which the configured map resolves to relay 0 — so after
the synthesized Off is processed, the channel that was turned on is still
ON, contradicting the claim (and spec) that the timer turns the same
channel off for any configured prefix and start index.  The source itself
flags the slip: `// Adjust as needed for your pointId mapping`. -/
theorem C5_timer_off_targets_wrong_channel :
    (timerFire 1 (processCommand relayMap1 (opmInit 2)
        (onTimedCmd "DirectRelay_2"))).queue = [offCmd "DirectRelay_1"] ∧
    relayMapFind relayMap1 "DirectRelay_1" = some 0 ∧
    relayMapFind relayMap1 "DirectRelay_2" = some 1 ∧
    Nat.testBit (processQueueStep relayMap1
        (timerFire 1 (processCommand relayMap1 (opmInit 2)
          (onTimedCmd "DirectRelay_2")))).relayState 1 = true ∧
    (processQueueStep relayMap1
        (timerFire 1 (processCommand relayMap1 (opmInit 2)
          (onTimedCmd "DirectRelay_2")))).queue = [] := by
  decide

/-- C8: for a valid autopilot window W, `validateAndAddEvent` rejects W
exactly when some existing window has an equal start time, an equal end
time, is strictly enveloped by W, or has W's start or end strictly inside
its span; in particular merely touching windows are accepted. -/
theorem C8_autopilot_overlap_exact (schedule : Schedule) (W : AutopilotWindow)
    (hW : W.isValid = true) :
    (validateAndAddEvent schedule W).1 = false ↔
      ∃ ex ∈ schedule.autopilotWindows,
        W.startTime = ex.startTime ∨ W.endTime = ex.endTime ∨
        (W.startTime < ex.startTime ∧ W.endTime > ex.endTime) ∨
        (W.startTime > ex.startTime ∧ W.startTime < ex.endTime) ∨
        (W.endTime > ex.startTime ∧ W.endTime < ex.endTime) := by
  have hbounds : checkTimeBounds W.startTime = true ∧
      checkTimeBounds W.endTime = true := by
    unfold AutopilotWindow.isValid at hW
    split at hW
    · exact absurd hW (by simp)
    · rename_i hc
      simp only [Bool.or_eq_true, decide_eq_true_eq, not_or, not_lt] at hc
      unfold checkTimeBounds
      constructor
      · simp only [Bool.and_eq_true, decide_eq_true_eq, ge_iff_le]
        omega
      · simp only [Bool.and_eq_true, decide_eq_true_eq, ge_iff_le]
        omega
  have hover : checkAutopilotOverlap schedule W = true ↔
      (∃ ex ∈ schedule.autopilotWindows,
        W.startTime = ex.startTime ∨ W.endTime = ex.endTime ∨
        (W.startTime < ex.startTime ∧ W.endTime > ex.endTime) ∨
        (W.startTime > ex.startTime ∧ W.startTime < ex.endTime) ∨
        (W.endTime > ex.startTime ∧ W.endTime < ex.endTime)) := by
    unfold checkAutopilotOverlap
    rw [List.any_eq_true]
    simp only [Bool.or_eq_true, Bool.and_eq_true, beq_iff_eq, decide_eq_true_eq]
    constructor
    · rintro ⟨x, hx, hor⟩
      exact ⟨x, hx, by tauto⟩
    · rintro ⟨x, hx, hor⟩
      exact ⟨x, hx, by tauto⟩
  cases hov : checkAutopilotOverlap schedule W with
  | true =>
    have hex := hover.mp hov
    unfold validateAndAddEvent
    rw [hW]
    simp only [Bool.not_true, Bool.false_eq_true, if_false, hbounds.1,
      hbounds.2, Bool.and_self, hov, if_true]
    simpa using hex
  | false =>
    unfold validateAndAddEvent
    rw [hW]
    simp only [Bool.not_true, Bool.false_eq_true, if_false, hbounds.1,
      hbounds.2, Bool.and_self, hov]
    constructor
    · intro h
      exact absurd h (by simp)
    · intro hex
      have := hover.mpr hex
      rw [hov] at this
      exact absurd this (by simp)

/-- C8 witness: with the stored window [60,120), the touching window
[120,180) matches no overlap rule of the theorem and is in fact accepted,
as is the first window into an empty schedule. -/
theorem C8_witness :
    win120.isValid = true ∧
    ((validateAndAddEvent schedWith60 win120).1 = false ↔
      ∃ ex ∈ schedWith60.autopilotWindows,
        win120.startTime = ex.startTime ∨ win120.endTime = ex.endTime ∨
        (win120.startTime < ex.startTime ∧ win120.endTime > ex.endTime) ∨
        (win120.startTime > ex.startTime ∧ win120.startTime < ex.endTime) ∨
        (win120.endTime > ex.startTime ∧ win120.endTime < ex.endTime)) ∧
    (validateAndAddEvent schedWith60 win120).1 = true ∧
    (validateAndAddEvent emptySched win60).1 = true :=
  ⟨by decide, C8_autopilot_overlap_exact schedWith60 win120 (by decide),
   by decide, by decide⟩

/-- C7 counterexample: a batch of two identical duration events (equal
start times, overlapping spans) submitted to an empty schedule is accepted
— the batch validator only checks each event against the events already in
the schedule, never against the rest of its own batch — so the resulting
schedule stores two comparable events that overlap per the rules of
section 4.4, refuting the claimed invariant. -/
theorem C7_counterexample :
    (validateAndAddDurationEvents emptySched [durEvt10, durEvt10]).1 = true ∧
    (validateAndAddDurationEvents emptySched
      [durEvt10, durEvt10]).2.durationEvents = [durEvt10, durEvt10] ∧
    ¬ durationStartsPairwiseDistinct
        (validateAndAddDurationEvents emptySched [durEvt10, durEvt10]).2 := by
  refine ⟨by decide, by decide, ?_⟩
  intro h
  unfold durationStartsPairwiseDistinct at h
  rw [(by decide : (validateAndAddDurationEvents emptySched
      [durEvt10, durEvt10]).2.durationEvents = [durEvt10, durEvt10])] at h
  exact (List.pairwise_cons.mp h).1 durEvt10 (by simp) rfl

/-- C7 amended: when a duration (or volume) batch is accepted, the combined
duration+volume count afterwards is at most 100 and every added event is
overlap-free against the events that were already in the schedule before
the call; events within the same batch are not validated against each
other, so the full pairwise invariant holds only when the batch itself is
mutually non-overlapping. -/
theorem C7_amended_batch_checks :
    (∀ (s : Schedule) (evs : List DurationEvent),
      (validateAndAddDurationEvents s evs).1 = true →
      (validateAndAddDurationEvents s evs).2.durationEvents.length +
        (validateAndAddDurationEvents s evs).2.volumeEvents.length ≤ 100 ∧
      ∀ e ∈ evs, checkDurationOverlap s e = false ∧
        checkVolumeOverlap s (tempVolEvent e) = false) ∧
    (∀ (s : Schedule) (evs : List VolumeEvent),
      (validateAndAddVolumeEvents s evs).1 = true →
      (validateAndAddVolumeEvents s evs).2.durationEvents.length +
        (validateAndAddVolumeEvents s evs).2.volumeEvents.length ≤ 100 ∧
      ∀ e ∈ evs, checkVolumeOverlap s e = false ∧
        checkDurationOverlap s (tempDurEvent e) = false) := by
  constructor
  · intro s evs h
    refine ⟨validateAndAddDurationEvents_count h, ?_⟩
    obtain ⟨-, hall, -⟩ := validateAndAddDurationEvents_true h
    intro e he
    have hok := List.all_eq_true.mp hall e he
    unfold durationEventOk at hok
    simp only [Bool.and_eq_true, Bool.not_eq_true'] at hok
    exact ⟨hok.1.2, hok.2⟩
  · intro s evs h
    refine ⟨validateAndAddVolumeEvents_count h, ?_⟩
    obtain ⟨-, hall, -⟩ := validateAndAddVolumeEvents_true h
    intro e he
    have hok := List.all_eq_true.mp hall e he
    unfold volumeEventOk at hok
    simp only [Bool.and_eq_true, Bool.not_eq_true'] at hok
    exact ⟨hok.1.2, hok.2⟩

/-- C7 amended witness: concrete accepted one-event batches satisfy the
count bound and the overlap-freedom against the pre-existing schedule. -/
theorem C7_amended_witness :
    ((validateAndAddDurationEvents emptySched [durEvt10]).2.durationEvents.length +
      (validateAndAddDurationEvents emptySched [durEvt10]).2.volumeEvents.length ≤ 100 ∧
     ∀ e ∈ [durEvt10], checkDurationOverlap emptySched e = false ∧
       checkVolumeOverlap emptySched (tempVolEvent e) = false) ∧
    ((validateAndAddVolumeEvents emptySched [volEvt5]).2.durationEvents.length +
      (validateAndAddVolumeEvents emptySched [volEvt5]).2.volumeEvents.length ≤ 100 ∧
     ∀ e ∈ [volEvt5], checkVolumeOverlap emptySched e = false ∧
       checkDurationOverlap emptySched (tempDurEvent e) = false) :=
  ⟨C7_amended_batch_checks.1 emptySched [durEvt10] (by decide),
   C7_amended_batch_checks.2 emptySched [volEvt5] (by decide)⟩

/-- C9: adding duration or volume events succeeds only if the combined
duration+volume count after insertion is at most 100; a schedule holding
100 combined events rejects a further one, and a schedule holding 99
accepts a further one whose other validation passes. -/
theorem C9_combined_event_limit :
    (∀ (s : Schedule) (evs : List DurationEvent),
      (validateAndAddDurationEvents s evs).1 = true →
      (validateAndAddDurationEvents s evs).2.durationEvents.length +
        (validateAndAddDurationEvents s evs).2.volumeEvents.length ≤ 100) ∧
    (∀ (s : Schedule) (evs : List VolumeEvent),
      (validateAndAddVolumeEvents s evs).1 = true →
      (validateAndAddVolumeEvents s evs).2.durationEvents.length +
        (validateAndAddVolumeEvents s evs).2.volumeEvents.length ≤ 100) ∧
    (∀ (s : Schedule) (e : DurationEvent),
      s.durationEvents.length + s.volumeEvents.length = 100 →
      (validateAndAddDurationEvents s [e]).1 = false) ∧
    (∀ (s : Schedule) (e : DurationEvent),
      s.durationEvents.length + s.volumeEvents.length = 99 →
      durationEventOk s e = true →
      (validateAndAddDurationEvents s [e]).1 = true) := by
  refine ⟨fun s evs h => validateAndAddDurationEvents_count h,
    fun s evs h => validateAndAddVolumeEvents_count h, ?_, ?_⟩
  · intro s e hcount
    unfold validateAndAddDurationEvents
    have hlim : checkDurationVolumeLimit s [e].length = false := by
      unfold checkDurationVolumeLimit
      simp only [List.length_singleton, decide_eq_false_iff_not]
      omega
    rw [hlim]
    rfl
  · intro s e hcount hok
    unfold validateAndAddDurationEvents
    have hlim : checkDurationVolumeLimit s [e].length = true := by
      unfold checkDurationVolumeLimit
      simp only [List.length_singleton, decide_eq_true_eq]
      omega
    have hall : [e].all (durationEventOk s) = true := by
      simp [hok]
    rw [hlim, hall]
    rfl

/-- C9 witness: the concrete 100-event schedule rejects one more duration
event, the 99-event schedule accepts one, and the accepted call's combined
count stays at 100. -/
theorem C9_witness :
    (validateAndAddDurationEvents sched100 [durEvt1000]).1 = false ∧
    (validateAndAddDurationEvents sched99 [durEvt1000]).1 = true ∧
    (validateAndAddDurationEvents sched99 [durEvt1000]).2.durationEvents.length +
      (validateAndAddDurationEvents sched99 [durEvt1000]).2.volumeEvents.length
      ≤ 100 :=
  ⟨C9_combined_event_limit.2.2.1 sched100 durEvt1000 (by decide),
   C9_combined_event_limit.2.2.2 sched99 durEvt1000 (by decide) (by decide),
   C9_combined_event_limit.1 sched99 [durEvt1000]
     (C9_combined_event_limit.2.2.2 sched99 durEvt1000 (by decide) (by decide))⟩

end SNRv5
